import Mathlib

/-!
# Verification of the chatstack OAuth2/PKCE authentication core

Shallow embedding of `backend/app/services/auth_service.py`,
`backend/app/repositories/oauth_repository.py` and
`backend/app/api/v1/endpoints/auth.py` (the wired HTTP endpoint layer),
together with proofs of the specification's testable properties.

Modelling conventions:
* timestamps (`time.time()`) are integers (seconds), passed explicitly as `now`;
* Python `dict[str, ...]` JSON-ish values are association lists over `JVal`
  (strings, integers, null), with first-occurrence lookup and in-place update,
  matching Python dict semantics;
* outbound HTTP calls (token endpoint, Google token verification, user-info,
  token-introspection) are oracle functions supplied as explicit inputs,
  returning either the parsed success body or the failure carried by the
  non-success response;
* `HTTPException` raising/catching is modelled with `Except`.
-/

namespace ChatStack

/-- A JSON-ish value stored in a Python dict (the subset the auth code uses). -/
inductive JVal where
  | str (s : String)
  | num (n : Int)
  | null
  deriving DecidableEq, Repr

/-- A Python `dict[str, JVal]`: association list, first occurrence wins. -/
abbrev Dict := List (String × JVal)

namespace Dict

/-- `d.get(k)` / `d[k]` lookup: first matching key. -/
def lookup : Dict → String → Option JVal
  | [], _ => none
  | (k', v') :: rest, k => if k' = k then some v' else lookup rest k

/-- `d[k] = v` / `d.update({k: v})`: overwrite in place, else append
(Python dicts preserve insertion order and update in place). -/
def insert : Dict → String → JVal → Dict
  | [], k, v => [(k, v)]
  | (k', v') :: rest, k, v =>
      if k' = k then (k, v) :: rest else (k', v') :: insert rest k v

theorem lookup_insert_self (d : Dict) (k : String) (v : JVal) :
    lookup (insert d k v) k = some v := by
  induction d with
  | nil => simp [insert, lookup]
  | cons hd tl ih =>
    obtain ⟨k', v'⟩ := hd
    by_cases h : k' = k <;> simp [insert, lookup, h, ih]

theorem lookup_insert_ne (d : Dict) (k k' : String) (v : JVal) (hne : k' ≠ k) :
    lookup (insert d k v) k' = lookup d k' := by
  have hkk' : ¬ k = k' := fun h => hne h.symm
  induction d with
  | nil => simp [insert, lookup, hkk']
  | cons hd tl ih =>
    obtain ⟨k₀, v₀⟩ := hd
    by_cases h : k₀ = k
    · subst h
      simp [insert, lookup, hkk']
    · by_cases h' : k₀ = k' <;> simp [insert, lookup, h, h', ih, hne]

end Dict

/-! ## Token Codec (`create_access_token` / `verify_access_token`)

The `python-jose` HS256 signature is modelled by an arbitrary MAC function
`mac : Nat → Dict → Nat` (secret, payload ↦ tag); `jwt.encode` attaches the
tag, `jwt.decode` recomputes and compares it and then enforces the `exp`
claim exactly as jose's `_validate_exp` does (expired iff `exp < now`,
missing `exp` accepted). -/

/-- A signed session token: payload plus MAC tag (models a compact JWS). -/
structure JWT where
  payload : Dict
  sig : Nat
  deriving DecidableEq, Repr

/-- `AuthService.create_access_token` (auth_service.py:55-61):
copies `data`, sets `exp := now + expire_minutes * 60`, signs with the
process-wide secret.  `expire_minutes` is `self.access_token_expire_minutes`
(= 60 in the source). -/
def create_access_token (mac : Nat → Dict → Nat) (secret : Nat) (now : Int)
    (expire_minutes : Int) (data : Dict) : JWT :=
  let to_encode := Dict.insert data "exp" (.num (now + expire_minutes * 60))
  { payload := to_encode, sig := mac secret to_encode }

/-- `AuthService.verify_access_token` (auth_service.py:63-69):
`jwt.decode` validates the signature, then the `exp` claim
(jose raises `ExpiredSignatureError` iff `exp < now`); any `JWTError`
is mapped to `None`. -/
def verify_access_token (mac : Nat → Dict → Nat) (secret : Nat) (now : Int)
    (token : JWT) : Option Dict :=
  if token.sig = mac secret token.payload then
    match Dict.lookup token.payload "exp" with
    | some (.num e) => if e < now then none else some token.payload
    | some _ => none
    | none => some token.payload
  else
    none

/-- C5: Session-token round trip with expiry: a token produced by
`create_access_token` at time `issued` with claims `C` and TTL
`expire_minutes * 60` seconds, verified at any time strictly before
`issued + TTL`, yields exactly `C` plus the `exp` claim; verified at any
time after `issued + TTL`, it yields the invalid sentinel `None`. -/
theorem session_token_roundtrip (mac : Nat → Dict → Nat) (secret : Nat)
    (C : Dict) (expire_minutes : Int) (issued t₁ t₂ : Int)
    (h₁ : t₁ < issued + expire_minutes * 60)
    (h₂ : t₂ > issued + expire_minutes * 60) :
    verify_access_token mac secret t₁
        (create_access_token mac secret issued expire_minutes C)
      = some (Dict.insert C "exp" (.num (issued + expire_minutes * 60)))
    ∧ verify_access_token mac secret t₂
        (create_access_token mac secret issued expire_minutes C)
      = none := by
  have h₁' : ¬ (issued + expire_minutes * 60 < t₁) := by omega
  have h₂' : issued + expire_minutes * 60 < t₂ := h₂
  constructor <;>
    simp [create_access_token, verify_access_token, Dict.lookup_insert_self, h₁', h₂']

/-- Witness for C5 at a concrete MAC, secret, claims map, TTL and times. -/
theorem session_token_roundtrip_witness :
    verify_access_token (fun s d => s + d.length) 7 50
        (create_access_token (fun s d => s + d.length) 7 0 1 [("sub", .str "u1")])
      = some (Dict.insert [("sub", .str "u1")] "exp" (.num 60))
    ∧ verify_access_token (fun s d => s + d.length) 7 61
        (create_access_token (fun s d => s + d.length) 7 0 1 [("sub", .str "u1")])
      = none :=
  session_token_roundtrip (fun s d => s + d.length) 7 [("sub", .str "u1")] 1 0 50 61
    (by decide) (by decide)

/-! ## State Store (`oauth_repository.py`)

The two Mongo collections `oauth_states` and `code_verifiers` each carry a
unique index on `state`, so they are modelled as partial maps keyed by the
state string.  `result.modified_count > 0 or result.upserted_id is not None`
of `update_one(..., upsert=True)` is `true` iff the stored document changed
or was created.  `clean_expired_*` return `deleted_count` in the source; no
caller in the repository uses it, so the model returns the swept store. -/

/-- A document of the `oauth_states` collection (oauth_repository.py:25-29). -/
structure StateRec where
  state : String
  created_at : Int
  expires_at : Int
  deriving DecidableEq, Repr

/-- A document of the `code_verifiers` collection (oauth_repository.py:67-72). -/
structure VerifierRec where
  state : String
  code_verifier : String
  created_at : Int
  expires_at : Int
  deriving DecidableEq, Repr

/-- The database state owned by `OAuthRepository`. -/
@[ext] structure OAuthStore where
  oauth_states : String → Option StateRec
  code_verifiers : String → Option VerifierRec

/-- `OAuthRepository.save_oauth_state` (oauth_repository.py:20-38):
upsert by `state` with `expires_at = now + 600` and
`created_at = data.get("created_at", now)`. -/
def save_oauth_state (now : Int) (state : String) (data_created_at : Option Int)
    (db : OAuthStore) : Bool × OAuthStore :=
  let expires_at := now + 600
  let state_data : StateRec :=
    { state := state, created_at := data_created_at.getD now, expires_at := expires_at }
  let changed : Bool :=
    match db.oauth_states state with
    | none => true
    | some old => decide (old ≠ state_data)
  (changed,
   { db with oauth_states := fun s => if s = state then some state_data else db.oauth_states s })

/-- `OAuthRepository.get_oauth_state` (oauth_repository.py:40-49):
lazy expiry — if the record exists but `now > expires_at`, delete it and
return `None`. -/
def get_oauth_state (now : Int) (state : String) (db : OAuthStore) :
    Option StateRec × OAuthStore :=
  match db.oauth_states state with
  | none => (none, db)
  | some state_data =>
    if now > state_data.expires_at then
      (none,
       { db with oauth_states := fun s => if s = state then none else db.oauth_states s })
    else
      (some state_data, db)

/-- `OAuthRepository.delete_oauth_state` (oauth_repository.py:51-54). -/
def delete_oauth_state (state : String) (db : OAuthStore) : Bool × OAuthStore :=
  ((db.oauth_states state).isSome,
   { db with oauth_states := fun s => if s = state then none else db.oauth_states s })

/-- `OAuthRepository.clean_expired_oauth_states` (oauth_repository.py:56-59):
`delete_many({"expires_at": {"$lt": now}})`. -/
def clean_expired_oauth_states (now : Int) (db : OAuthStore) : OAuthStore :=
  { db with oauth_states := fun s =>
      match db.oauth_states s with
      | some r => if r.expires_at < now then none else some r
      | none => none }

/-- `OAuthRepository.save_code_verifier` (oauth_repository.py:62-81):
upsert by `state`, `created_at = now`, `expires_at = now + 600`. -/
def save_code_verifier (now : Int) (state code_verifier : String)
    (db : OAuthStore) : Bool × OAuthStore :=
  let expires_at := now + 600
  let verifier_data : VerifierRec :=
    { state := state, code_verifier := code_verifier, created_at := now,
      expires_at := expires_at }
  let changed : Bool :=
    match db.code_verifiers state with
    | none => true
    | some old => decide (old ≠ verifier_data)
  (changed,
   { db with code_verifiers := fun s =>
      if s = state then some verifier_data else db.code_verifiers s })

/-- `OAuthRepository.get_code_verifier` (oauth_repository.py:83-92):
lazy expiry as for states; on success returns only the `code_verifier`
field. -/
def get_code_verifier (now : Int) (state : String) (db : OAuthStore) :
    Option String × OAuthStore :=
  match db.code_verifiers state with
  | none => (none, db)
  | some verifier_data =>
    if now > verifier_data.expires_at then
      (none,
       { db with code_verifiers := fun s => if s = state then none else db.code_verifiers s })
    else
      (some verifier_data.code_verifier, db)

/-- `OAuthRepository.delete_code_verifier` (oauth_repository.py:94-97). -/
def delete_code_verifier (state : String) (db : OAuthStore) : Bool × OAuthStore :=
  ((db.code_verifiers state).isSome,
   { db with code_verifiers := fun s => if s = state then none else db.code_verifiers s })

/-- `OAuthRepository.clean_expired_code_verifiers` (oauth_repository.py:99-102). -/
def clean_expired_code_verifiers (now : Int) (db : OAuthStore) : OAuthStore :=
  { db with code_verifiers := fun s =>
      match db.code_verifiers s with
      | some r => if r.expires_at < now then none else some r
      | none => none }

/-- C6: State Store TTL round trip.  `save_oauth_state` called at `now` with
`created_at = now` upserts a record with `expires_at = created_at + 600` and
is idempotent on the same key; `get_oauth_state` at any `t ≤ expires_at`
returns the record unchanged, and at any `t' > expires_at` returns absent and
deletes the record; symmetrically for `save_code_verifier`/`get_code_verifier`
keyed by the same state. -/
theorem state_store_ttl_roundtrip (db : OAuthStore) (state verifier : String)
    (now t t' : Int) (ht : t ≤ now + 600) (ht' : t' > now + 600) :
    ((save_oauth_state now state (some now) db).2.oauth_states state
        = some ⟨state, now, now + 600⟩)
    ∧ ((save_oauth_state now state (some now)
          ((save_oauth_state now state (some now) db).2)).2
        = (save_oauth_state now state (some now) db).2)
    ∧ (get_oauth_state t state (save_oauth_state now state (some now) db).2
        = (some ⟨state, now, now + 600⟩, (save_oauth_state now state (some now) db).2))
    ∧ ((get_oauth_state t' state (save_oauth_state now state (some now) db).2).1 = none
        ∧ (get_oauth_state t' state
            (save_oauth_state now state (some now) db).2).2.oauth_states state = none)
    ∧ ((save_code_verifier now state verifier db).2.code_verifiers state
        = some ⟨state, verifier, now, now + 600⟩)
    ∧ ((save_code_verifier now state verifier
          ((save_code_verifier now state verifier db).2)).2
        = (save_code_verifier now state verifier db).2)
    ∧ (get_code_verifier t state (save_code_verifier now state verifier db).2
        = (some verifier, (save_code_verifier now state verifier db).2))
    ∧ ((get_code_verifier t' state (save_code_verifier now state verifier db).2).1 = none
        ∧ (get_code_verifier t' state
            (save_code_verifier now state verifier db).2).2.code_verifiers state = none) := by
  have hte : ¬ (now + 600 < t) := by omega
  have hte' : now + 600 < t' := ht'
  refine ⟨?_, ?_, ?_, ⟨?_, ?_⟩, ?_, ?_, ?_, ⟨?_, ?_⟩⟩ <;>
    simp [save_oauth_state, get_oauth_state, save_code_verifier, get_code_verifier,
      hte, hte']
  · ext s
    by_cases h : s = state <;> simp [h]
  · ext s
    by_cases h : s = state <;> simp [h]

/-- Witness for C6 on an initially empty store, `now = 0`, `t = 600`,
`t' = 601`. -/
theorem state_store_ttl_roundtrip_witness :
    ((save_oauth_state 0 "st" (some 0) ⟨fun _ => none, fun _ => none⟩).2.oauth_states "st"
        = some ⟨"st", 0, 600⟩)
    ∧ ((save_oauth_state 0 "st" (some 0)
          ((save_oauth_state 0 "st" (some 0) ⟨fun _ => none, fun _ => none⟩).2)).2
        = (save_oauth_state 0 "st" (some 0) ⟨fun _ => none, fun _ => none⟩).2)
    ∧ (get_oauth_state 600 "st" (save_oauth_state 0 "st" (some 0) ⟨fun _ => none, fun _ => none⟩).2
        = (some ⟨"st", 0, 600⟩,
            (save_oauth_state 0 "st" (some 0) ⟨fun _ => none, fun _ => none⟩).2))
    ∧ ((get_oauth_state 601 "st"
          (save_oauth_state 0 "st" (some 0) ⟨fun _ => none, fun _ => none⟩).2).1 = none
        ∧ (get_oauth_state 601 "st"
            (save_oauth_state 0 "st" (some 0)
              ⟨fun _ => none, fun _ => none⟩).2).2.oauth_states "st" = none)
    ∧ ((save_code_verifier 0 "st" "ver" ⟨fun _ => none, fun _ => none⟩).2.code_verifiers "st"
        = some ⟨"st", "ver", 0, 600⟩)
    ∧ ((save_code_verifier 0 "st" "ver"
          ((save_code_verifier 0 "st" "ver" ⟨fun _ => none, fun _ => none⟩).2)).2
        = (save_code_verifier 0 "st" "ver" ⟨fun _ => none, fun _ => none⟩).2)
    ∧ (get_code_verifier 600 "st"
          (save_code_verifier 0 "st" "ver" ⟨fun _ => none, fun _ => none⟩).2
        = (some "ver", (save_code_verifier 0 "st" "ver" ⟨fun _ => none, fun _ => none⟩).2))
    ∧ ((get_code_verifier 601 "st"
          (save_code_verifier 0 "st" "ver" ⟨fun _ => none, fun _ => none⟩).2).1 = none
        ∧ (get_code_verifier 601 "st"
            (save_code_verifier 0 "st" "ver"
              ⟨fun _ => none, fun _ => none⟩).2).2.code_verifiers "st" = none) :=
  state_store_ttl_roundtrip ⟨fun _ => none, fun _ => none⟩ "st" "ver" 0 600 601
    (by decide) (by decide)

/-! ## Rate Limiter (`AuthService.check_rate_limit`, auth_service.py:119-152)

`self.rate_limit_store` is a `defaultdict(list)` mapping a client identifier
to its request timestamps.  It is modelled as an association list so that the
`len(self.rate_limit_store) > 1000` cleanup trigger (the number of tracked
clients) is expressible; a missing key reads as `[]`, and writing a key
materialises it, as a `defaultdict` access does. -/

/-- The `rate_limit_store` table: client id ↦ request timestamps. -/
abbrev RateStore := List (String × List Int)

namespace RateStore

/-- Read a client's timestamp list (`defaultdict` read: missing ↦ `[]`). -/
def getTimes : RateStore → String → List Int
  | [], _ => []
  | (ip', ts) :: rest, ip => if ip' = ip then ts else getTimes rest ip

/-- Assign a client's timestamp list (`store[ip] = ts`). -/
def setTimes : RateStore → String → List Int → RateStore
  | [], ip, ts => [(ip, ts)]
  | (ip', ts') :: rest, ip, ts =>
      if ip' = ip then (ip, ts) :: rest else (ip', ts') :: setTimes rest ip ts

theorem getTimes_setTimes_self (store : RateStore) (ip : String) (ts : List Int) :
    (store.setTimes ip ts).getTimes ip = ts := by
  induction store with
  | nil => simp [setTimes, getTimes]
  | cons hd rest ih =>
    obtain ⟨ip', ts'⟩ := hd
    by_cases h : ip' = ip <;> simp [setTimes, getTimes, h, ih]

theorem getTimes_setTimes_ne (store : RateStore) (ip ip' : String) (ts : List Int)
    (hne : ip' ≠ ip) : (store.setTimes ip ts).getTimes ip' = store.getTimes ip' := by
  have h' : ¬ ip = ip' := fun h => hne h.symm
  induction store with
  | nil => simp [setTimes, getTimes, h']
  | cons hd rest ih =>
    obtain ⟨ip₀, ts₀⟩ := hd
    by_cases h : ip₀ = ip
    · subst h
      simp [setTimes, getTimes, h']
    · by_cases h₂ : ip₀ = ip' <;> simp [setTimes, getTimes, h, h₂, ih, h', hne]

/-- If the first entry for `ip` satisfies the filter predicate, filtering the
table leaves that client's reading unchanged. -/
theorem getTimes_filter (store : RateStore) (p : String × List Int → Bool)
    (ip : String) (h : p (ip, store.getTimes ip) = true) :
    getTimes (store.filter p) ip = store.getTimes ip := by
  induction store with
  | nil => simp [getTimes]
  | cons hd rest ih =>
    obtain ⟨ip', ts'⟩ := hd
    by_cases heq : ip' = ip
    · subst heq
      have h' : p (ip', ts') = true := by simpa [getTimes] using h
      simp [List.filter_cons, h', getTimes]
    · simp only [getTimes, if_neg heq] at h ⊢
      rcases hp : p (ip', ts') <;> simp [List.filter_cons, hp, getTimes, heq, ih h]

end RateStore

theorem foldl_max_init_le (t : Int) (ts : List Int) : t ≤ ts.foldl max t := by
  induction ts generalizing t with
  | nil => exact le_refl t
  | cons u us ih =>
    calc t ≤ max t u := le_max_left t u
    _ ≤ us.foldl max (max t u) := ih (max t u)

theorem mem_le_foldl_max (x t : Int) (ts : List Int) (h : x ∈ ts) :
    x ≤ ts.foldl max t := by
  induction ts generalizing t with
  | nil => cases h
  | cons u us ih =>
    rcases List.mem_cons.mp h with rfl | hmem
    · calc x ≤ max t x := le_max_right t x
      _ ≤ us.foldl max (max t x) := foldl_max_init_le _ _
    · exact ih (max t u) hmem

/-- `self.rate_limit_max_requests` (auth_service.py:40). -/
def rate_limit_max_requests : Nat := 20

/-- `self.rate_limit_window` (auth_service.py:41), seconds. -/
def rate_limit_window : Int := 60

/-- The keep-predicate of `_cleanup_old_rate_limit_entries`: an entry is
deleted when `not timestamps or now - max(timestamps) > window`. -/
def rate_limit_keep (now : Int) (e : String × List Int) : Bool :=
  match e.2 with
  | [] => false
  | t :: ts => decide (now - ts.foldl max t ≤ rate_limit_window)

/-- `AuthService._cleanup_old_rate_limit_entries` (auth_service.py:142-152). -/
def cleanup_old_rate_limit_entries (now : Int) (store : RateStore) : RateStore :=
  store.filter (rate_limit_keep now)

/-- `AuthService.check_rate_limit` (auth_service.py:119-140): prune the
client's timestamps to the trailing window, reject if the pruned count has
reached the maximum, else record `now` (and, when more than 1000 clients are
tracked, purge stale clients). -/
def check_rate_limit (now : Int) (client_ip : String) (store : RateStore) :
    Bool × RateStore :=
  let pruned := (store.getTimes client_ip).filter (fun t => now - t < rate_limit_window)
  let store1 := store.setTimes client_ip pruned
  if rate_limit_max_requests ≤ pruned.length then
    (false, store1)
  else
    let store2 := store1.setTimes client_ip (pruned ++ [now])
    let store3 :=
      if 1000 < store2.length then cleanup_old_rate_limit_entries now store2 else store2
    (true, store3)

/-- Driver for a sequence of checks by one client at the given times. -/
def run_rate_limit_calls (ip : String) : List Int → RateStore → List Bool × RateStore
  | [], store => ([], store)
  | t :: ts, store =>
    let r := check_rate_limit t ip store
    let rs := run_rate_limit_calls ip ts r.2
    (r.1 :: rs.1, rs.2)

/-- An entry whose timestamps end in `now` is never purged by the cleanup. -/
theorem rate_limit_keep_append_now (now : Int) (ip : String) (pruned : List Int) :
    rate_limit_keep now (ip, pruned ++ [now]) = true := by
  rcases hp : pruned ++ [now] with _ | ⟨t, ts⟩
  · simp at hp
  · have hmem : now ∈ t :: ts := by rw [← hp]; simp
    have hle : now ≤ ts.foldl max t := by
      rcases List.mem_cons.mp hmem with rfl | hmem'
      · exact foldl_max_init_le _ _
      · exact mem_le_foldl_max _ _ _ hmem'
    simp only [rate_limit_keep, hp]
    simp only [rate_limit_window, decide_eq_true_eq]
    omega

/-- C8: Rate-limiter sliding window.  Each check prunes the client's
timestamps to the trailing 60-second window, rejects iff the pruned count has
reached 20, and otherwise records the current timestamp; consequently, from
an empty table, 20 calls within one window all succeed, a 21st call in the
same window fails, and a call made after the window has elapsed since the
recorded calls succeeds again. -/
theorem rate_limit_sliding_window :
    (∀ (now : Int) (ip : String) (store : RateStore),
      ((check_rate_limit now ip store).1 = false
        ↔ rate_limit_max_requests ≤
            ((store.getTimes ip).filter (fun t => now - t < rate_limit_window)).length)
      ∧ ((check_rate_limit now ip store).1 = true →
          (check_rate_limit now ip store).2.getTimes ip
            = (store.getTimes ip).filter (fun t => now - t < rate_limit_window) ++ [now]))
    ∧ (run_rate_limit_calls "c" ((List.range 20).map Int.ofNat) []).1
        = List.replicate 20 true
    ∧ (check_rate_limit 20 "c"
        (run_rate_limit_calls "c" ((List.range 20).map Int.ofNat) []).2).1 = false
    ∧ (check_rate_limit 80 "c"
        (check_rate_limit 20 "c"
          (run_rate_limit_calls "c" ((List.range 20).map Int.ofNat) []).2).2).1 = true := by
  refine ⟨?_, by decide, by decide, by decide⟩
  intro now ip store
  by_cases h : rate_limit_max_requests ≤
      ((store.getTimes ip).filter (fun t => now - t < rate_limit_window)).length
  · refine ⟨by simp [check_rate_limit, h], fun htrue => absurd htrue ?_⟩
    simp [check_rate_limit, h]
  · refine ⟨by simp [check_rate_limit, h], fun _ => ?_⟩
    have hself : RateStore.getTimes
        ((store.setTimes ip ((store.getTimes ip).filter (fun t => now - t < rate_limit_window))).setTimes
          ip (((store.getTimes ip).filter (fun t => now - t < rate_limit_window)) ++ [now])) ip
        = ((store.getTimes ip).filter (fun t => now - t < rate_limit_window)) ++ [now] :=
      RateStore.getTimes_setTimes_self _ _ _
    simp only [check_rate_limit, if_neg h]
    split
    · rw [cleanup_old_rate_limit_entries,
        RateStore.getTimes_filter _ _ _ (by rw [hself]; exact rate_limit_keep_append_now _ _ _),
        hself]
    · exact hself

/-- Witness for C8's universally quantified mechanism part, at a concrete
client, time and table (the scenario conjuncts are already closed). -/
theorem rate_limit_sliding_window_witness :
    ((check_rate_limit 5 "w" [("w", [1, 2])]).1 = false
      ↔ rate_limit_max_requests ≤
          ((RateStore.getTimes [("w", [1, 2])] "w").filter
            (fun t => 5 - t < rate_limit_window)).length)
    ∧ ((check_rate_limit 5 "w" [("w", [1, 2])]).1 = true →
        (check_rate_limit 5 "w" [("w", [1, 2])]).2.getTimes "w"
          = (RateStore.getTimes [("w", [1, 2])] "w").filter
              (fun t => 5 - t < rate_limit_window) ++ [5]) :=
  rate_limit_sliding_window.1 5 "w" [("w", [1, 2])]

/-- C10: a rejected rate-limit check records no new timestamp for the
rejecting client (its entry is merely pruned to the window) and leaves every
other client's entry unchanged. -/
theorem rate_limit_reject_frame (now : Int) (ip : String) (store : RateStore)
    (hrej : (check_rate_limit now ip store).1 = false) :
    ((check_rate_limit now ip store).2.getTimes ip
        = (store.getTimes ip).filter (fun t => now - t < rate_limit_window))
    ∧ ∀ ip', ip' ≠ ip →
        (check_rate_limit now ip store).2.getTimes ip' = store.getTimes ip' := by
  by_cases h : rate_limit_max_requests ≤
      ((store.getTimes ip).filter (fun t => now - t < rate_limit_window)).length
  · refine ⟨?_, fun ip' hne => ?_⟩
    · simp [check_rate_limit, h, RateStore.getTimes_setTimes_self]
    · simp [check_rate_limit, h, RateStore.getTimes_setTimes_ne _ _ _ _ hne]
  · exact absurd hrej (by simp [check_rate_limit, h])

/-- Witness for C10: a client with 20 in-window timestamps is rejected, its
entry keeps exactly the pruned timestamps, and another client's (empty)
entry is untouched. -/
theorem rate_limit_reject_frame_witness :
    ((check_rate_limit 5 "c" [("c", List.replicate 20 0)]).2.getTimes "c"
        = (RateStore.getTimes [("c", List.replicate 20 0)] "c").filter
            (fun t => 5 - t < rate_limit_window))
    ∧ (check_rate_limit 5 "c" [("c", List.replicate 20 0)]).2.getTimes "d"
        = RateStore.getTimes [("c", List.replicate 20 0)] "d" :=
  ⟨(rate_limit_reject_frame 5 "c" [("c", List.replicate 20 0)] (by decide)).1,
   (rate_limit_reject_frame 5 "c" [("c", List.replicate 20 0)] (by decide)).2 "d"
     (by decide)⟩

/-! ## SHA-256 (`hashlib.sha256`, FIPS 180-4)

Executable model of the `hashlib.sha256(...).digest()` primitive used by
`generate_code_challenge`: bytes are `Nat < 256`, words are `Nat` reduced
modulo `2^32`.  (Checked against the standard test vectors while developing.) -/

namespace SHA256

/-- `2^32`, the word modulus. -/
def M32 : Nat := 4294967296

def rotr (n x : Nat) : Nat := ((x >>> n) ||| (x <<< (32 - n))) % M32
def shr (n x : Nat) : Nat := x >>> n

def smallSigma0 (x : Nat) : Nat := (rotr 7 x) ^^^ (rotr 18 x) ^^^ (shr 3 x)
def smallSigma1 (x : Nat) : Nat := (rotr 17 x) ^^^ (rotr 19 x) ^^^ (shr 10 x)
def bigSigma0 (x : Nat) : Nat := (rotr 2 x) ^^^ (rotr 13 x) ^^^ (rotr 22 x)
def bigSigma1 (x : Nat) : Nat := (rotr 6 x) ^^^ (rotr 11 x) ^^^ (rotr 25 x)

def Ch (x y z : Nat) : Nat := (x &&& y) ^^^ ((x ^^^ 0xffffffff) &&& z)
def Maj (x y z : Nat) : Nat := (x &&& y) ^^^ (x &&& z) ^^^ (y &&& z)

/-- The 64 round constants of FIPS 180-4 §4.2.2 (decimal). -/
def K : List Nat :=
  [1116352408, 1899447441, 3049323471, 3921009573, 961987163, 1508970993, 2453635748,
   2870763221, 3624381080, 310598401, 607225278, 1426881987, 1925078388, 2162078206,
   2614888103, 3248222580, 3835390401, 4022224774, 264347078, 604807628, 770255983,
   1249150122, 1555081692, 1996064986, 2554220882, 2821834349, 2952996808, 3210313671,
   3336571891, 3584528711, 113926993, 338241895, 666307205, 773529912, 1294757372,
   1396182291, 1695183700, 1986661051, 2177026350, 2456956037, 2730485921, 2820302411,
   3259730800, 3345764771, 3516065817, 3600352804, 4094571909, 275423344, 430227734,
   506948616, 659060556, 883997877, 958139571, 1322822218, 1537002063, 1747873779,
   1955562222, 2024104815, 2227730452, 2361852424, 2428436474, 2756734187, 3204031479,
   3329325298]

/-- The eight working variables of the compression state. -/
structure Hash8 where
  a : Nat
  b : Nat
  c : Nat
  d : Nat
  e : Nat
  f : Nat
  g : Nat
  h : Nat
  deriving DecidableEq, Repr

/-- The initial hash value of FIPS 180-4 §5.3.3 (decimal). -/
def initH : Hash8 :=
  ⟨1779033703, 3144134277, 1013904242, 2773480762,
   1359893119, 2600822924, 528734635, 1541459225⟩

/-- Big-endian bytes → 32-bit words. -/
def toWordsBE : List Nat → List Nat
  | b0 :: b1 :: b2 :: b3 :: rest =>
      (((b0 * 256 + b1) * 256 + b2) * 256 + b3) :: toWordsBE rest
  | _ => []

/-- One step of the message-schedule extension. -/
def extendStep (w : List Nat) : List Nat :=
  w ++ [(w.getD (w.length - 16) 0 + smallSigma0 (w.getD (w.length - 15) 0)
        + w.getD (w.length - 7) 0 + smallSigma1 (w.getD (w.length - 2) 0)) % M32]

/-- Extend the 16 chunk words to the 64 schedule words. -/
def schedule (w : List Nat) : List Nat := extendStep^[48] w

/-- One compression round. -/
def round (st : Hash8) (kw : Nat × Nat) : Hash8 :=
  let t1 := (st.h + bigSigma1 st.e + Ch st.e st.f st.g + kw.1 + kw.2) % M32
  let t2 := (bigSigma0 st.a + Maj st.a st.b st.c) % M32
  { a := (t1 + t2) % M32, b := st.a, c := st.b, d := st.c,
    e := (st.d + t1) % M32, f := st.e, g := st.f, h := st.g }

/-- Compress one 64-byte chunk into the running hash. -/
def compress (hs : Hash8) (chunk : List Nat) : Hash8 :=
  let w := schedule (toWordsBE chunk)
  let st := (K.zip w).foldl round hs
  { a := (hs.a + st.a) % M32, b := (hs.b + st.b) % M32, c := (hs.c + st.c) % M32,
    d := (hs.d + st.d) % M32, e := (hs.e + st.e) % M32, f := (hs.f + st.f) % M32,
    g := (hs.g + st.g) % M32, h := (hs.h + st.h) % M32 }

/-- The 64-bit big-endian message length in bits. -/
def lengthBytesBE (bits : Nat) : List Nat :=
  [(bits >>> 56) % 256, (bits >>> 48) % 256, (bits >>> 40) % 256, (bits >>> 32) % 256,
   (bits >>> 24) % 256, (bits >>> 16) % 256, (bits >>> 8) % 256, bits % 256]

/-- Merkle–Damgård padding to a multiple of 64 bytes. -/
def pad (msg : List Nat) : List Nat :=
  let L := msg.length
  let k := (119 - (L % 64)) % 64
  msg ++ 0x80 :: List.replicate k 0 ++ lengthBytesBE (L * 8)

/-- Split into 64-byte chunks. -/
def chunks64 : List Nat → List (List Nat)
  | [] => []
  | x :: rest => (x :: rest.take 63) :: chunks64 (rest.drop 63)
  termination_by l => l.length
  decreasing_by simp; omega

/-- 32-bit word → big-endian bytes. -/
def wordBytesBE (w : Nat) : List Nat :=
  [(w >>> 24) % 256, (w >>> 16) % 256, (w >>> 8) % 256, w % 256]

/-- `hashlib.sha256(msg).digest()`: the 32-byte digest. -/
def sha256 (msg : List Nat) : List Nat :=
  let final := (chunks64 (pad msg)).foldl compress initH
  wordBytesBE final.a ++ wordBytesBE final.b ++ wordBytesBE final.c ++ wordBytesBE final.d
    ++ wordBytesBE final.e ++ wordBytesBE final.f ++ wordBytesBE final.g ++ wordBytesBE final.h

/-- The digest always consists of the 32 serialized state bytes. -/
theorem sha256_length (msg : List Nat) : (sha256 msg).length = 32 := by
  simp [sha256, wordBytesBE]

end SHA256

/-! ## URL-safe base64 (`base64.urlsafe_b64encode`) and `secrets.token_urlsafe` -/

/-- The URL-safe base64 alphabet (RFC 4648 §5): `A-Z a-z 0-9 - _`. -/
def b64UrlChars : List Char :=
  ['A','B','C','D','E','F','G','H','I','J','K','L','M','N','O','P','Q','R','S','T','U','V','W','X','Y','Z',
   'a','b','c','d','e','f','g','h','i','j','k','l','m','n','o','p','q','r','s','t','u','v','w','x','y','z',
   '0','1','2','3','4','5','6','7','8','9','-','_']

/-- The alphabet character for a 6-bit group. -/
def b64Char (n : Nat) : Char := (b64UrlChars.get? n).getD 'A'

/-- `base64.urlsafe_b64encode` on a byte string, as a char list
(with `'='` padding). -/
def b64UrlEncodePad : List Nat → List Char
  | [] => []
  | [b1] => [b64Char (b1 / 4), b64Char (b1 % 4 * 16), '=', '=']
  | [b1, b2] => [b64Char (b1 / 4), b64Char (b1 % 4 * 16 + b2 / 16), b64Char (b2 % 16 * 4), '=']
  | b1 :: b2 :: b3 :: rest =>
      b64Char (b1 / 4) :: b64Char (b1 % 4 * 16 + b2 / 16) ::
      b64Char (b2 % 16 * 4 + b3 / 64) :: b64Char (b3 % 64) :: b64UrlEncodePad rest

/-- Modelled from the spec: `base64url_nopad` — URL-safe base64 without any
`'='` padding, the reference encoding the spec's PKCE round-trip property is
stated against. -/
def b64UrlEncodeNoPad : List Nat → List Char
  | [] => []
  | [b1] => [b64Char (b1 / 4), b64Char (b1 % 4 * 16)]
  | [b1, b2] => [b64Char (b1 / 4), b64Char (b1 % 4 * 16 + b2 / 16), b64Char (b2 % 16 * 4)]
  | b1 :: b2 :: b3 :: rest =>
      b64Char (b1 / 4) :: b64Char (b1 % 4 * 16 + b2 / 16) ::
      b64Char (b2 % 16 * 4 + b3 / 64) :: b64Char (b3 % 64) :: b64UrlEncodeNoPad rest

/-- Python `str.rstrip('=')`. -/
def rstripEq (cs : List Char) : List Char :=
  (cs.reverse.dropWhile (fun c => c == '=')).reverse

theorem b64Char_mem (n : Nat) : b64Char n ∈ b64UrlChars := by
  unfold b64Char
  cases h : b64UrlChars.get? n with
  | none => simpa using (by decide : 'A' ∈ b64UrlChars)
  | some c =>
    simpa using List.get?_mem h

theorem b64Char_ne_eq (n : Nat) : b64Char n ≠ '=' := by
  intro h
  have := b64Char_mem n
  rw [h] at this
  exact absurd this (by decide)

theorem b64Char_beq_eq_false (n : Nat) : (b64Char n == '=') = false := by
  simpa using b64Char_ne_eq n

theorem dropWhile_append_of_ne_nil {α : Type} (p : α → Bool) (l₁ l₂ : List α)
    (h : l₁.dropWhile p ≠ []) :
    (l₁ ++ l₂).dropWhile p = l₁.dropWhile p ++ l₂ := by
  induction l₁ with
  | nil => exact absurd rfl h
  | cons a l ih =>
    rcases hp : p a with _ | _
    · simp [List.dropWhile_cons, hp]
    · simp only [List.dropWhile_cons, hp] at h ⊢
      simpa [hp] using ih h

theorem rstripEq_append_of_ne_nil (front x : List Char) (h : rstripEq x ≠ []) :
    rstripEq (front ++ x) = front ++ rstripEq x := by
  have hx : x.reverse.dropWhile (fun c => c == '=') ≠ [] := by
    intro hnil
    exact h (by simp [rstripEq, hnil])
  simp only [rstripEq, List.reverse_append,
    dropWhile_append_of_ne_nil _ _ _ hx, List.reverse_append, List.reverse_reverse]

theorem b64UrlEncodeNoPad_ne_nil (bs : List Nat) (h : bs ≠ []) :
    b64UrlEncodeNoPad bs ≠ [] := by
  match bs with
  | [] => exact absurd rfl h
  | [b1] => simp [b64UrlEncodeNoPad]
  | [b1, b2] => simp [b64UrlEncodeNoPad]
  | b1 :: b2 :: b3 :: rest => simp [b64UrlEncodeNoPad]

/-- Stripping the `'='` padding from `base64.urlsafe_b64encode` output gives
exactly the padding-free base64url encoding. -/
theorem rstripEq_b64UrlEncodePad (bs : List Nat) :
    rstripEq (b64UrlEncodePad bs) = b64UrlEncodeNoPad bs := by
  induction bs using b64UrlEncodePad.induct with
  | case1 => simp [b64UrlEncodePad, b64UrlEncodeNoPad, rstripEq]
  | case2 b1 =>
    simp [b64UrlEncodePad, b64UrlEncodeNoPad, rstripEq, List.dropWhile,
      b64Char_beq_eq_false]
  | case3 b1 b2 =>
    simp [b64UrlEncodePad, b64UrlEncodeNoPad, rstripEq, List.dropWhile,
      b64Char_beq_eq_false]
  | case4 b1 b2 b3 rest ih =>
    by_cases hrest : rest = []
    · subst hrest
      simp [b64UrlEncodePad, b64UrlEncodeNoPad, rstripEq, List.dropWhile,
        b64Char_beq_eq_false]
    · have hne : rstripEq (b64UrlEncodePad rest) ≠ [] := by
        rw [ih]
        exact b64UrlEncodeNoPad_ne_nil rest hrest
      calc rstripEq (b64UrlEncodePad (b1 :: b2 :: b3 :: rest))
          = rstripEq ([b64Char (b1 / 4), b64Char (b1 % 4 * 16 + b2 / 16),
              b64Char (b2 % 16 * 4 + b3 / 64), b64Char (b3 % 64)] ++ b64UrlEncodePad rest) := by
            cases rest with
            | nil => exact absurd rfl hrest
            | cons r rs => rfl
        _ = [b64Char (b1 / 4), b64Char (b1 % 4 * 16 + b2 / 16),
              b64Char (b2 % 16 * 4 + b3 / 64), b64Char (b3 % 64)] ++ rstripEq (b64UrlEncodePad rest) :=
            rstripEq_append_of_ne_nil _ _ hne
        _ = b64UrlEncodeNoPad (b1 :: b2 :: b3 :: rest) := by
            rw [ih]
            cases rest with
            | nil => exact absurd rfl hrest
            | cons r rs => rfl

/-- Every character of a padding-free base64url encoding is in the URL-safe
alphabet. -/
theorem b64UrlEncodeNoPad_chars (bs : List Nat) :
    ∀ c ∈ b64UrlEncodeNoPad bs, c ∈ b64UrlChars := by
  induction bs using b64UrlEncodeNoPad.induct with
  | case1 => simp [b64UrlEncodeNoPad]
  | case2 b1 => simp [b64UrlEncodeNoPad, b64Char_mem]
  | case3 b1 b2 => simp [b64UrlEncodeNoPad, b64Char_mem]
  | case4 b1 b2 b3 rest ih =>
    intro c hc
    simp only [b64UrlEncodeNoPad, List.mem_cons] at hc
    rcases hc with rfl | rfl | rfl | rfl | hc
    · exact b64Char_mem _
    · exact b64Char_mem _
    · exact b64Char_mem _
    · exact b64Char_mem _
    · exact ih c hc

/-- Length of the padding-free base64url encoding: `⌈4n/3⌉` rounded the
base64 way. -/
theorem b64UrlEncodeNoPad_length (bs : List Nat) :
    (b64UrlEncodeNoPad bs).length = (bs.length * 4 + 2) / 3 := by
  induction bs using b64UrlEncodeNoPad.induct with
  | case1 => simp [b64UrlEncodeNoPad]
  | case2 b1 => simp [b64UrlEncodeNoPad]
  | case3 b1 b2 => simp [b64UrlEncodeNoPad]
  | case4 b1 b2 b3 rest ih =>
    simp only [b64UrlEncodeNoPad, List.length_cons, ih]
    omega

/-- `secrets.token_urlsafe(nbytes)` (Python stdlib): URL-safe base64 of
`nbytes` random bytes with the `'='` padding stripped; the random bytes are
an explicit input. -/
def token_urlsafe (random_bytes : List Nat) : String :=
  ⟨rstripEq (b64UrlEncodePad random_bytes)⟩

/-- `AuthService.generate_code_verifier` (auth_service.py:44-46):
`secrets.token_urlsafe(length)` with the default `length = 128`, i.e. the
URL-safe encoding of 128 random bytes. -/
def generate_code_verifier (random_bytes : List Nat) : String :=
  token_urlsafe random_bytes

/-- `str.encode()` on the ASCII strings this flow produces (URL-safe base64
alphabet), where UTF-8 coincides with the code points. -/
def strBytes (s : String) : List Nat := s.data.map Char.toNat

/-- `AuthService.generate_code_challenge` (auth_service.py:48-52):
`base64.urlsafe_b64encode(hashlib.sha256(v.encode()).digest()).decode().rstrip('=')`. -/
def generate_code_challenge (code_verifier : String) : String :=
  ⟨rstripEq (b64UrlEncodePad (SHA256.sha256 (strBytes code_verifier)))⟩

/-- Result of `AuthService.initiate_google_login`: the provider
authorization URL plus the updated State Store. -/
structure InitiateResult where
  auth_url : String
  db : OAuthStore

/-- `AuthService.initiate_google_login` (auth_service.py:155-188): generate
`state` (`secrets.token_urlsafe(32)`) and a PKCE pair (randomness passed in
as `state_bytes`/`verifier_bytes`), persist both keyed by `state`,
opportunistically sweep expired states, and build the authorization URL. -/
def initiate_google_login (now : Int) (google_client_id redirect_uri : String)
    (state_bytes verifier_bytes : List Nat) (db : OAuthStore) : InitiateResult :=
  let state := token_urlsafe state_bytes
  let code_verifier := generate_code_verifier verifier_bytes
  let code_challenge := generate_code_challenge code_verifier
  let db1 := (save_oauth_state now state (some now) db).2
  let db2 := (save_code_verifier now state code_verifier db1).2
  let db3 := clean_expired_oauth_states now db2
  { auth_url :=
      "https://accounts.google.com/o/oauth2/v2/auth"
      ++ "?response_type=code"
      ++ "&client_id=" ++ google_client_id
      ++ "&redirect_uri=" ++ redirect_uri
      ++ "&scope=email%20profile"
      ++ "&access_type=offline"
      ++ "&state=" ++ state
      ++ "&code_challenge=" ++ code_challenge
      ++ "&code_challenge_method=S256",
    db := db3 }

/-- C4: For every PKCE pair generated by `initiate_google_login`, the code
verifier is the URL-safe encoding of its 128 random bytes (every character
in the URL-safe alphabet, 171 characters for 128 bytes of entropy), the
verifier is stored paired with the state, and the challenge placed in the
authorization URL is exactly `base64url_nopad(SHA256(code_verifier))`. -/
theorem pkce_challenge_roundtrip (now : Int) (cid ruri : String)
    (state_bytes verifier_bytes : List Nat) (db : OAuthStore)
    (hlen : verifier_bytes.length = 128) :
    ((generate_code_verifier verifier_bytes).data = b64UrlEncodeNoPad verifier_bytes
      ∧ (∀ c ∈ (generate_code_verifier verifier_bytes).data, c ∈ b64UrlChars)
      ∧ (generate_code_verifier verifier_bytes).data.length = 171)
    ∧ generate_code_challenge (generate_code_verifier verifier_bytes)
        = ⟨b64UrlEncodeNoPad
            (SHA256.sha256 (strBytes (generate_code_verifier verifier_bytes)))⟩
    ∧ (initiate_google_login now cid ruri state_bytes verifier_bytes db).db.code_verifiers
          (token_urlsafe state_bytes)
        = some ⟨token_urlsafe state_bytes, generate_code_verifier verifier_bytes,
            now, now + 600⟩
    ∧ (initiate_google_login now cid ruri state_bytes verifier_bytes db).auth_url
        = "https://accounts.google.com/o/oauth2/v2/auth"
          ++ "?response_type=code"
          ++ "&client_id=" ++ cid
          ++ "&redirect_uri=" ++ ruri
          ++ "&scope=email%20profile"
          ++ "&access_type=offline"
          ++ "&state=" ++ token_urlsafe state_bytes
          ++ "&code_challenge="
          ++ generate_code_challenge (generate_code_verifier verifier_bytes)
          ++ "&code_challenge_method=S256" := by
  have hdata : (generate_code_verifier verifier_bytes).data
      = b64UrlEncodeNoPad verifier_bytes := by
    show rstripEq (b64UrlEncodePad verifier_bytes) = _
    exact rstripEq_b64UrlEncodePad verifier_bytes
  refine ⟨⟨hdata, ?_, ?_⟩, ?_, ?_, rfl⟩
  · rw [hdata]
    exact b64UrlEncodeNoPad_chars verifier_bytes
  · rw [hdata, b64UrlEncodeNoPad_length, hlen]
  · exact congrArg String.mk (rstripEq_b64UrlEncodePad _)
  · simp [initiate_google_login, clean_expired_oauth_states, save_code_verifier,
      save_oauth_state]

/-- Witness for C4 at 128 concrete random bytes. -/
theorem pkce_challenge_roundtrip_witness :
    ((generate_code_verifier (List.replicate 128 0)).data
        = b64UrlEncodeNoPad (List.replicate 128 0)
      ∧ (∀ c ∈ (generate_code_verifier (List.replicate 128 0)).data, c ∈ b64UrlChars)
      ∧ (generate_code_verifier (List.replicate 128 0)).data.length = 171)
    ∧ generate_code_challenge (generate_code_verifier (List.replicate 128 0))
        = ⟨b64UrlEncodeNoPad
            (SHA256.sha256 (strBytes (generate_code_verifier (List.replicate 128 0))))⟩
    ∧ (initiate_google_login 0 "cid" "ruri" [9, 9, 9] (List.replicate 128 0)
          ⟨fun _ => none, fun _ => none⟩).db.code_verifiers (token_urlsafe [9, 9, 9])
        = some ⟨token_urlsafe [9, 9, 9], generate_code_verifier (List.replicate 128 0),
            0, 600⟩
    ∧ (initiate_google_login 0 "cid" "ruri" [9, 9, 9] (List.replicate 128 0)
          ⟨fun _ => none, fun _ => none⟩).auth_url
        = "https://accounts.google.com/o/oauth2/v2/auth"
          ++ "?response_type=code"
          ++ "&client_id=" ++ "cid"
          ++ "&redirect_uri=" ++ "ruri"
          ++ "&scope=email%20profile"
          ++ "&access_type=offline"
          ++ "&state=" ++ token_urlsafe [9, 9, 9]
          ++ "&code_challenge="
          ++ generate_code_challenge (generate_code_verifier (List.replicate 128 0))
          ++ "&code_challenge_method=S256" :=
  pkce_challenge_roundtrip 0 "cid" "ruri" [9, 9, 9] (List.replicate 128 0)
    ⟨fun _ => none, fun _ => none⟩ (by simp)

/-! ## User repository (collaborator of the callback flow)

`UserRepository` upserts user profiles keyed by the provider subject id and
stores one opaque refresh token per user.  Subject ids are `JVal` because
the code passes through whatever JSON value the provider returned. -/

/-- The `UserInfo` pydantic schema (schemas/user.py), loosened to the JSON
values actually extracted (`user_data.get(...)` may be absent). -/
structure UserInfo where
  id : JVal
  email : Option JVal
  name : Option JVal
  picture : Option JVal
  deriving DecidableEq, Repr

/-- The users collection plus the per-user refresh tokens. -/
structure UserDB where
  users : JVal → Option UserInfo
  refresh_tokens : JVal → Option String

/-- `UserRepository.create_or_update_user`: upsert by id. -/
def create_or_update_user (u : UserInfo) (db : UserDB) : UserDB :=
  { db with users := fun i => if i = u.id then some u else db.users i }

/-- `UserRepository.save_user_refresh_token`. -/
def save_user_refresh_token (user_id : JVal) (rt : String) (db : UserDB) : UserDB :=
  { db with refresh_tokens := fun i => if i = user_id then some rt else db.refresh_tokens i }

/-- `UserRepository.get_user_refresh_token`. -/
def get_user_refresh_token (user_id : JVal) (db : UserDB) : Option String :=
  db.refresh_tokens user_id

/-! ## OAuth callback flow (`AuthService.process_google_callback`) -/

/-- The parsed JSON body of a successful token-endpoint response. -/
structure TokenSet where
  access_token : String
  id_token : String
  refresh_token : Option String
  deriving DecidableEq, Repr

/-- The distinct `HTTPException` sites of the callback flow (detail strings
that only echo collaborator output are carried as payloads; all sites are
status 400). -/
inductive CallbackError where
  | invalidState
  | invalidVerifier
  | tokenExchangeFailed (body : String)
  | errorDecodingIdToken
  | invalidIdToken
  | userInfoFailed (body : String)
  | userIdMismatch (idTokenSub : JVal) (userinfoSub : Option JVal)
  deriving DecidableEq, Repr

/-- The process environment and outbound-HTTP collaborators of the callback
flow, supplied as oracles: each oracle returns the parsed success body or
the failure text carried by a non-success response. -/
structure CallbackEnv where
  /-- `os.getenv("ENVIRONMENT")`. -/
  environment : Option String
  /-- POST to the token endpoint with (code, code_verifier). -/
  exchange : String → String → Except String TokenSet
  /-- `id_token.verify_oauth2_token(jwt, request, client_id)`: cryptographic
  signature and audience validation against Google's published keys. -/
  google_verify : String → Except String Dict
  /-- `base64.b64decode` + `json.loads` of a payload segment (dev branch). -/
  b64json : String → Except String Dict
  /-- GET userinfo with the access token. -/
  userinfo : String → Except String Dict
  /-- the HS256 MAC of the session-token codec. -/
  mac : Nat → Dict → Nat
  /-- `self.jwt_secret`. -/
  jwt_secret : Nat
  /-- `time.time()` during this request. -/
  now : Int

/-- `AuthService._exchange_code_for_tokens` (auth_service.py:268-291):
non-200 token-endpoint response → HTTP 400 surfacing the provider text. -/
def _exchange_code_for_tokens (env : CallbackEnv) (code code_verifier : String) :
    Except CallbackError TokenSet :=
  match env.exchange code code_verifier with
  | .error txt => .error (.tokenExchangeFailed txt)
  | .ok tokens => .ok tokens

/-- The insecure development branch of `_verify_id_token`
(auth_service.py:322-341): split the JWT on `'.'`, restore the base64
padding of the middle payload segment, decode it *without any signature
verification* and read `sub`; every failure (format, decode, missing key)
is caught and mapped to the "Error decoding ID token" HTTP 400. -/
def _verify_id_token_dev (b64json : String → Except String Dict)
    (id_token_jwt : String) : Except CallbackError JVal :=
  let parts := id_token_jwt.splitOn "."
  if parts.length ≠ 3 then .error .errorDecodingIdToken
  else
    let payload := parts.getD 1 ""
    let padded := payload ++ String.mk (List.replicate
      (if payload.length % 4 ≠ 0 then 4 - payload.length % 4 else 0) '=')
    match b64json padded with
    | .error _ => .error .errorDecodingIdToken
    | .ok idinfo =>
      match Dict.lookup idinfo "sub" with
      | some v => .ok v
      | none => .error .errorDecodingIdToken

/-- The strict branch of `_verify_id_token` (auth_service.py:342-358):
`id_token.verify_oauth2_token` (the oracle) validates signature and
audience against the provider's keys, then the issuer must be in the
accepted set and `sub` present; every failure is mapped to the
"Invalid ID token" HTTP 400. -/
def _verify_id_token_strict (verified : Except String Dict) :
    Except CallbackError JVal :=
  match verified with
  | .error _ => .error .invalidIdToken
  | .ok idinfo =>
    match Dict.lookup idinfo "iss" with
    | none => .error .invalidIdToken
    | some iss =>
      if iss ∉ ([.str "accounts.google.com", .str "https://accounts.google.com"] : List JVal)
      then .error .invalidIdToken
      else
        match Dict.lookup idinfo "sub" with
        | some v => .ok v
        | none => .error .invalidIdToken

/-- `AuthService._verify_id_token` (auth_service.py:320-358). -/
def _verify_id_token (env : CallbackEnv) (id_token_jwt : String) :
    Except CallbackError JVal :=
  if env.environment = some "development" then
    _verify_id_token_dev env.b64json id_token_jwt
  else
    _verify_id_token_strict (env.google_verify id_token_jwt)

/-- `AuthService._get_user_info_from_google` (auth_service.py:360-378):
non-200 userinfo response → HTTP 400 surfacing the provider text. -/
def _get_user_info_from_google (env : CallbackEnv) (access_token : String) :
    Except CallbackError Dict :=
  match env.userinfo access_token with
  | .error txt => .error (.userInfoFailed txt)
  | .ok user_data => .ok user_data

/-- `AuthService._verify_and_get_user_info` (auth_service.py:293-318):
verify the ID token, fetch user-info, fail on subject mismatch, else build
the profile (after the check, `user_data.get("sub")` equals the verified
subject). -/
def _verify_and_get_user_info (env : CallbackEnv) (tokens : TokenSet) :
    Except CallbackError UserInfo :=
  match _verify_id_token env tokens.id_token with
  | .error e => .error e
  | .ok user_id =>
    match _get_user_info_from_google env tokens.access_token with
    | .error e => .error e
    | .ok user_data =>
      if some user_id ≠ Dict.lookup user_data "sub" then
        .error (.userIdMismatch user_id (Dict.lookup user_data "sub"))
      else
        .ok { id := user_id, email := Dict.lookup user_data "email",
              name := Dict.lookup user_data "name",
              picture := Dict.lookup user_data "picture" }

/-- The success payload of `process_google_callback`. -/
structure CallbackSuccess where
  user_info : UserInfo
  session_token : JWT
  deriving DecidableEq, Repr

/-- The full outcome of one callback: HTTP result plus both stores. -/
structure CallbackResult where
  result : Except CallbackError CallbackSuccess
  db : OAuthStore
  users : UserDB

/-- The shared `except` exit of `process_google_callback`
(auth_service.py:254-266): every failure deletes the consumed state and
verifier before re-raising. -/
def callback_fail (e : CallbackError) (state : String) (db : OAuthStore)
    (udb : UserDB) : CallbackResult :=
  { result := .error e,
    db := (delete_code_verifier state (delete_oauth_state state db).2).2,
    users := udb }

/-- `AuthService.process_google_callback` (auth_service.py:190-266). -/
def process_google_callback (env : CallbackEnv) (code state : String)
    (db : OAuthStore) (udb : UserDB) : CallbackResult :=
  match get_oauth_state env.now state db with
  | (none, db1) => callback_fail .invalidState state db1 udb
  | (some _, db1) =>
    match get_code_verifier env.now state db1 with
    | (none, db2) => callback_fail .invalidVerifier state db2 udb
    | (some code_verifier, db2) =>
      match _exchange_code_for_tokens env code code_verifier with
      | .error e => callback_fail e state db2 udb
      | .ok tokens =>
        match _verify_and_get_user_info env tokens with
        | .error e => callback_fail e state db2 udb
        | .ok user_info =>
          let udb1 := create_or_update_user user_info udb
          let udb2 :=
            match tokens.refresh_token with
            | some rt => if rt = "" then udb1 else save_user_refresh_token user_info.id rt udb1
            | none => udb1
          let session_data : Dict :=
            [("sub", user_info.id), ("email", user_info.email.getD .null),
             ("name", user_info.name.getD .null), ("picture", user_info.picture.getD .null)]
          let session_token := create_access_token env.mac env.jwt_secret env.now 60 session_data
          let db3 := (delete_code_verifier state (delete_oauth_state state db2).2).2
          { result := .ok ⟨user_info, session_token⟩, db := db3, users := udb2 }

/-- Whether a callback outcome is a success. -/
def isOkResult {ε α : Type} : Except ε α → Bool
  | .ok _ => true
  | .error _ => false

/-- Every exit path of `process_google_callback` (success and each `except`
branch) deletes both the state record and the paired verifier. -/
theorem callback_deletes_state_and_verifier (env : CallbackEnv) (code state : String)
    (db : OAuthStore) (udb : UserDB) :
    (process_google_callback env code state db udb).db.oauth_states state = none
    ∧ (process_google_callback env code state db udb).db.code_verifiers state = none := by
  have hdel : ∀ db' : OAuthStore,
      (delete_code_verifier state (delete_oauth_state state db').2).2.oauth_states state = none
      ∧ (delete_code_verifier state
          (delete_oauth_state state db').2).2.code_verifiers state = none := by
    intro db'
    simp [delete_oauth_state, delete_code_verifier]
  unfold process_google_callback
  repeat' split
  all_goals exact hdel _

/-- A callback whose state is absent from the store fails `InvalidState`. -/
theorem callback_invalidState_of_absent (env : CallbackEnv) (code state : String)
    (db : OAuthStore) (udb : UserDB) (h : db.oauth_states state = none) :
    (process_google_callback env code state db udb).result = .error .invalidState := by
  simp [process_google_callback, get_oauth_state, h, callback_fail]

/-- C1: every generated state is consumed at most once: on every callback
outcome — success or any failure — both the state record and its paired code
verifier are deleted from the State Store, and after a first successful
callback with a given state, a second callback with the same state fails
`InvalidState`. -/
theorem state_single_use :
    (∀ (env : CallbackEnv) (code state : String) (db : OAuthStore) (udb : UserDB),
      (process_google_callback env code state db udb).db.oauth_states state = none
      ∧ (process_google_callback env code state db udb).db.code_verifiers state = none)
    ∧ (∀ (env env₂ : CallbackEnv) (code code₂ state : String) (db : OAuthStore)
        (udb udb₂ : UserDB),
        isOkResult (process_google_callback env code state db udb).result = true →
        (process_google_callback env₂ code₂ state
            (process_google_callback env code state db udb).db udb₂).result
          = .error .invalidState) := by
  refine ⟨fun env code state db udb =>
    callback_deletes_state_and_verifier env code state db udb,
    fun env env₂ code code₂ state db udb udb₂ _ =>
    callback_invalidState_of_absent env₂ code₂ state _ udb₂
      (callback_deletes_state_and_verifier env code state db udb).1⟩

/-- Concrete collaborator oracles under which the whole callback flow
succeeds (strict verification path, matching subjects). -/
def oracleOkEnv : CallbackEnv :=
  { environment := none,
    exchange := fun _ _ => .ok ⟨"at", "idt", some "rt"⟩,
    google_verify := fun _ => .ok [("iss", .str "accounts.google.com"), ("sub", .str "u1")],
    b64json := fun _ => .error "unused",
    userinfo := fun _ => .ok [("sub", .str "u1"), ("email", .str "u1@example.com"),
      ("name", .str "U One"), ("picture", .str "pic")],
    mac := fun s d => s + d.length,
    jwt_secret := 3,
    now := 0 }

/-- A store holding the state `"st"` and its paired verifier, both fresh. -/
def seededDb : OAuthStore :=
  ⟨fun s => if s = "st" then some ⟨"st", 0, 600⟩ else none,
   fun s => if s = "st" then some ⟨"st", "ver", 0, 600⟩ else none⟩

/-- An empty users collection. -/
def emptyUserDb : UserDB := ⟨fun _ => none, fun _ => none⟩

/-- Witness for C1: the first callback on the seeded store succeeds, and the
second callback with the same state fails `InvalidState`. -/
theorem state_single_use_witness :
    (process_google_callback oracleOkEnv "c2" "st"
        (process_google_callback oracleOkEnv "c1" "st" seededDb emptyUserDb).db
        emptyUserDb).result
      = .error .invalidState :=
  state_single_use.2 oracleOkEnv oracleOkEnv "c1" "c2" "st" seededDb emptyUserDb
    emptyUserDb (by decide)

/-- C3: identity-token verification is strict by default: for every
environment value other than the explicit `"development"` flag (including
unset), `_verify_id_token` runs the strict branch — cryptographic signature
and audience validation against the provider's keys (the
`id_token.verify_oauth2_token` oracle) — then requires the issuer to be in
the accepted set, returns the subject on success, and fails `InvalidToken`
on verification, issuer, or payload errors. -/
theorem id_token_strict_by_default (env : CallbackEnv) (jwt : String)
    (hprod : env.environment ≠ some "development") :
    (_verify_id_token env jwt = _verify_id_token_strict (env.google_verify jwt))
    ∧ (∀ m, env.google_verify jwt = .error m →
        _verify_id_token env jwt = .error .invalidIdToken)
    ∧ (∀ idinfo, env.google_verify jwt = .ok idinfo →
        ((Dict.lookup idinfo "iss" = none →
            _verify_id_token env jwt = .error .invalidIdToken)
        ∧ (∀ iss, Dict.lookup idinfo "iss" = some iss →
            iss ∉ ([.str "accounts.google.com",
                .str "https://accounts.google.com"] : List JVal) →
            _verify_id_token env jwt = .error .invalidIdToken)
        ∧ (∀ iss sub, Dict.lookup idinfo "iss" = some iss →
            iss ∈ ([.str "accounts.google.com",
                .str "https://accounts.google.com"] : List JVal) →
            Dict.lookup idinfo "sub" = some sub →
            _verify_id_token env jwt = .ok sub)
        ∧ (∀ iss, Dict.lookup idinfo "iss" = some iss →
            Dict.lookup idinfo "sub" = none →
            _verify_id_token env jwt = .error .invalidIdToken))) := by
  have hstrict : _verify_id_token env jwt
      = _verify_id_token_strict (env.google_verify jwt) := by
    simp [_verify_id_token, hprod]
  refine ⟨hstrict, ?_, ?_⟩
  · intro m hm
    rw [hstrict, hm]
    rfl
  · intro idinfo hok
    refine ⟨?_, ?_, ?_, ?_⟩
    · intro hiss
      rw [hstrict, hok]
      simp [_verify_id_token_strict, hiss]
    · intro iss hiss hnotin
      rw [hstrict, hok]
      simp [_verify_id_token_strict, hiss, hnotin]
    · intro iss sub hiss hin hsub
      rw [hstrict, hok]
      simp [_verify_id_token_strict, hiss, hin, hsub]
    · intro iss hiss hsub
      rw [hstrict, hok]
      by_cases hin : iss ∈ ([.str "accounts.google.com",
          .str "https://accounts.google.com"] : List JVal) <;>
        simp [_verify_id_token_strict, hiss, hin, hsub]

/-- Witness for C3: with the environment flag unset, verification takes the
strict path and returns the subject accepted by the oracle. -/
theorem id_token_strict_by_default_witness :
    _verify_id_token oracleOkEnv "jwt" = .ok (.str "u1") :=
  ((id_token_strict_by_default oracleOkEnv "jwt" (by decide)).2.2
      [("iss", .str "accounts.google.com"), ("sub", .str "u1")] rfl).2.2.1
    (.str "accounts.google.com") (.str "u1") rfl (by decide) rfl

/-! ## Token refresh (`AuthService.refresh_user_token`) -/

/-- The `HTTPException` sites of `refresh_user_token` (all status 401). -/
inductive RefreshError where
  | invalidUserSession
  | noRefreshToken
  | refreshFailed
  deriving DecidableEq, Repr

/-- Python truthiness of `user.get("sub")` (`if not user_id`). -/
def jval_truthy : Option JVal → Bool
  | none => false
  | some .null => false
  | some (.str s) => decide (s ≠ "")
  | some (.num n) => decide (n ≠ 0)

/-- `AuthService.refresh_user_token` (auth_service.py:422-471): look up the
stored refresh token for `user["sub"]`; `if not refresh_token` is Python
falsiness, so both a missing token and a stored empty string fail
`NoRefreshToken`.  Otherwise exchange it at the token endpoint (oracle:
`true` = HTTP 200, fails `RefreshFailed` otherwise) and, on success,
re-issue a session token from a copy of the *existing* session claims —
nothing is re-fetched from the provider. -/
def refresh_user_token (mac : Nat → Dict → Nat) (secret : Nat) (now : Int)
    (refresh_exchange : String → Bool) (user : Dict) (udb : UserDB) :
    Except RefreshError JWT :=
  let user_id := Dict.lookup user "sub"
  if jval_truthy user_id then
    match get_user_refresh_token (user_id.getD .null) udb with
    | none => .error .noRefreshToken
    | some refresh_token =>
      if refresh_token = "" then
        .error .noRefreshToken
      else if refresh_exchange refresh_token then
        .ok (create_access_token mac secret now 60 user)
      else
        .error .refreshFailed
  else
    .error .invalidUserSession

/-- C9: `refresh_user_token` fails `NoRefreshToken` when no refresh token
is recorded for the session's `sub` (nothing stored, or — Python falsiness
of `if not refresh_token` — an empty string stored); on a successful
provider exchange of a recorded non-empty token it issues a new session
token whose claims are exactly the caller's existing session claims plus
the updated `exp` — every claim other than `exp` is unchanged, so no
profile field is re-fetched or modified by the refresh. -/
theorem refresh_session_claims_frame (mac : Nat → Dict → Nat) (secret : Nat)
    (now : Int) (rex : String → Bool) (user : Dict) (udb : UserDB) (uid : JVal)
    (hsub : Dict.lookup user "sub" = some uid)
    (htruthy : jval_truthy (some uid) = true) :
    (get_user_refresh_token uid udb = none →
      refresh_user_token mac secret now rex user udb = .error .noRefreshToken)
    ∧ (get_user_refresh_token uid udb = some "" →
      refresh_user_token mac secret now rex user udb = .error .noRefreshToken)
    ∧ (∀ rt, get_user_refresh_token uid udb = some rt → rt ≠ "" → rex rt = true →
        refresh_user_token mac secret now rex user udb
          = .ok (create_access_token mac secret now 60 user)
        ∧ (create_access_token mac secret now 60 user).payload
            = Dict.insert user "exp" (.num (now + 60 * 60))
        ∧ ∀ k, k ≠ "exp" →
            Dict.lookup (create_access_token mac secret now 60 user).payload k
              = Dict.lookup user k) := by
  refine ⟨?_, ?_, ?_⟩
  · intro hnone
    simp [refresh_user_token, hsub, htruthy, hnone]
  · intro hempty
    simp [refresh_user_token, hsub, htruthy, hempty]
  · intro rt hrt hne hex
    refine ⟨by simp [refresh_user_token, hsub, htruthy, hrt, hne, hex], rfl, ?_⟩
    intro k hk
    exact Dict.lookup_insert_ne user "exp" k _ hk

/-- A users store holding a refresh token for subject `"u1"`. -/
def rtUserDb : UserDB :=
  ⟨fun _ => none, fun i => if i = .str "u1" then some "rt" else none⟩

/-- Witness for C9: concrete session claims, stored refresh token and a
successful exchange; the new token carries the old claims (e.g. `email`)
unchanged. -/
theorem refresh_session_claims_frame_witness :
    refresh_user_token (fun s d => s + d.length) 3 0 (fun _ => true)
        [("sub", .str "u1"), ("email", .str "e")] rtUserDb
      = .ok (create_access_token (fun s d => s + d.length) 3 0 60
          [("sub", .str "u1"), ("email", .str "e")])
    ∧ Dict.lookup (create_access_token (fun s d => s + d.length) 3 0 60
          [("sub", .str "u1"), ("email", .str "e")]).payload "email"
      = Dict.lookup [("sub", .str "u1"), ("email", .str "e")] "email" := by
  have h := (refresh_session_claims_frame (fun s d => s + d.length) 3 0 (fun _ => true)
    [("sub", .str "u1"), ("email", .str "e")] rtUserDb (.str "u1") rfl (by decide)).2.2
    "rt" rfl (by decide) rfl
  exact ⟨h.1, h.2.2 "email" (by decide)⟩

/-! ## Direct token verification (`POST /auth/verify-google-token`)

Two implementations coexist in the repository:
`AuthService.verify_google_token_direct` (auth_service.py:380-420), whose
`except HTTPException: raise` re-raises its 401s intact, and the wired
endpoint `verify_google_token` (api/v1/endpoints/auth.py:399-450), whose
only handler is `except Exception` — which also catches `HTTPException`
(a subclass of `Exception`) and re-raises every failure as the 500
`"Authentication error: ..."` response. -/

/-- The failure sites of the direct-verification path: the `HTTPException`
raises plus the pydantic `ValidationError` (a generic exception seen only
through a catch-all). -/
inductive HttpFail where
  /-- 401 "Invalid authentication credentials" (introspection non-200). -/
  | invalidCredentials
  /-- 401 "Token not issued for this application" (`aud` ≠ client id). -/
  | wrongAudience
  /-- 400 `"Failed to get user info: ..."`, raised by the shared service
  helper `_get_user_info_from_google`. -/
  | userInfoFailed (body : String)
  /-- 401 "Failed to get user info", raised inline in the endpoint. -/
  | userInfoFailed401
  /-- pydantic `ValidationError` from constructing the `UserInfo` response
  model; not an `HTTPException`, it surfaces only through a catch-all as
  the 500 wrap. -/
  | validationError
  /-- 500 `"Authentication error: {e}"`, the catch-all wrap. -/
  | authenticationError (inner : HttpFail)
  deriving DecidableEq, Repr

/-- The `status_code` of the HTTP response each site produces. -/
def HttpFail.status : HttpFail → Nat
  | .invalidCredentials => 401
  | .wrongAudience => 401
  | .userInfoFailed _ => 400
  | .userInfoFailed401 => 401
  | .validationError => 500
  | .authenticationError _ => 500

/-- Whether a JSON value satisfies a pydantic `str` field. -/
def isStr : Option JVal → Bool
  | some (.str _) => true
  | _ => false

/-- Whether a JSON value satisfies a pydantic `Optional[str]` field
(absent, `null` or a string). -/
def isOptStr : Option JVal → Bool
  | none => true
  | some .null => true
  | some (.str _) => true
  | some (.num _) => false

/-- `UserInfo(id=user_data.get("sub"), email=..., name=..., picture=...)`
under pydantic validation (auth.py:82-86 / schemas/user.py): `id`, `email`
and `name` are required `str` fields, `picture` is `Optional[str]`; a
missing or non-string value raises `ValidationError`. -/
def mkUserInfo (user_data : Dict) : Except Unit UserInfo :=
  if isStr (Dict.lookup user_data "sub") ∧ isStr (Dict.lookup user_data "email")
      ∧ isStr (Dict.lookup user_data "name")
      ∧ isOptStr (Dict.lookup user_data "picture") then
    .ok { id := (Dict.lookup user_data "sub").getD .null,
          email := Dict.lookup user_data "email",
          name := Dict.lookup user_data "name",
          picture := Dict.lookup user_data "picture" }
  else
    .error ()

/-- `AuthService.verify_google_token_direct` (auth_service.py:380-420):
introspect the access token at the token-info endpoint, require the `aud`
claim to equal this application's client id, then fetch user-info;
`except HTTPException: raise` propagates each `HTTPException` with its own
status, while a pydantic `ValidationError` from building `UserInfo` falls
through to the `except Exception` clause and becomes the 500
"Authentication error" wrap. -/
def verify_google_token_direct (tokeninfo userinfo : String → Except String Dict)
    (google_client_id : Option String) (access_token : String) :
    Except HttpFail UserInfo :=
  match tokeninfo access_token with
  | .error _ => .error .invalidCredentials
  | .ok token_info =>
    if Dict.lookup token_info "aud" ≠ google_client_id.map JVal.str then
      .error .wrongAudience
    else
      match userinfo access_token with
      | .error txt => .error (.userInfoFailed txt)
      | .ok user_data =>
        match mkUserInfo user_data with
        | .ok u => .ok u
        | .error _ => .error (.authenticationError .validationError)

/-- The response of the wired endpoint: the HTTP result plus the
`session_token` cookie it attaches, if any (this endpoint never calls
`set_auth_cookie`, so the field is always `none`). -/
structure EndpointResponse where
  result : Except HttpFail UserInfo
  set_cookie : Option String
  deriving Repr

/-- The wired endpoint `verify_google_token`
(api/v1/endpoints/auth.py:399-450): the `try` body raises 401 on
introspection failure, audience mismatch or user-info failure (or a
pydantic `ValidationError` while building the response model), but the
single `except Exception` clause catches all of them — `HTTPException`s
included — and re-raises every failure as the 500 "Authentication error"
response. -/
def verify_google_token_endpoint (tokeninfo userinfo : String → Except String Dict)
    (google_client_id : Option String) (access_token : String) : EndpointResponse :=
  let body : Except HttpFail UserInfo :=
    match tokeninfo access_token with
    | .error _ => .error .invalidCredentials
    | .ok token_info =>
      if Dict.lookup token_info "aud" ≠ google_client_id.map JVal.str then
        .error .wrongAudience
      else
        match userinfo access_token with
        | .error _ => .error .userInfoFailed401
        | .ok user_data =>
          match mkUserInfo user_data with
          | .ok u => .ok u
          | .error _ => .error .validationError
  { result :=
      match body with
      | .ok u => .ok u
      | .error e => .error (.authenticationError e),
    set_cookie := none }

/-- Successful user-info oracle used in the C7 evaluations (all required
profile fields present). -/
def okUserinfoOracle : String → Except String Dict :=
  fun _ => .ok [("sub", .str "u1"), ("email", .str "e"), ("name", .str "n")]

/-- C7 (code-bug evidence): at the failing input — an access token whose
introspection returns non-200 — the wired endpoint answers 500
("Authentication error", wrapping the 401 its own body raised), not the 401
the claim states, because its catch-all `except Exception` also catches
`HTTPException`; audience mismatch is likewise wrapped into 500; the
service-layer variant of the same logic does return the 401; the success
path (all required profile fields present) returns the profile, while a
user-info body missing the required `name` field fails pydantic validation
and is also answered 500; and the endpoint never attaches a session cookie
(every failure it can return is the 500 wrap). -/
theorem verify_google_token_evidence :
    (verify_google_token_endpoint (fun _ => .error "bad") okUserinfoOracle
        (some "cid") "tok"
      = { result := .error (.authenticationError .invalidCredentials),
          set_cookie := none })
    ∧ (HttpFail.authenticationError .invalidCredentials).status = 500
    ∧ HttpFail.invalidCredentials.status = 401
    ∧ verify_google_token_direct (fun _ => .error "bad") okUserinfoOracle
        (some "cid") "tok" = .error .invalidCredentials
    ∧ (verify_google_token_endpoint (fun _ => .ok [("aud", .str "other")])
        okUserinfoOracle (some "cid") "tok").result
      = .error (.authenticationError .wrongAudience)
    ∧ verify_google_token_endpoint (fun _ => .ok [("aud", .str "cid")])
        okUserinfoOracle (some "cid") "tok"
      = { result := .ok ⟨.str "u1", some (.str "e"), some (.str "n"), none⟩,
          set_cookie := none }
    ∧ (verify_google_token_endpoint (fun _ => .ok [("aud", .str "cid")])
        (fun _ => .ok [("sub", .str "u1"), ("email", .str "e")])
        (some "cid") "tok").result
      = .error (.authenticationError .validationError)
    ∧ ∀ (ti ui : String → Except String Dict) (cid : Option String) (tok : String),
        (verify_google_token_endpoint ti ui cid tok).set_cookie = none
        ∧ ∀ e, (verify_google_token_endpoint ti ui cid tok).result = .error e →
            e.status = 500 := by
  refine ⟨rfl, rfl, rfl, rfl, rfl, rfl, rfl, ?_⟩
  intro ti ui cid tok
  refine ⟨rfl, ?_⟩
  intro e he
  dsimp only [verify_google_token_endpoint] at he
  split at he
  · exact absurd he (by simp)
  · obtain rfl : HttpFail.authenticationError _ = e := by
      injection he
    rfl

/-- Witness for C7's quantified part: at the concrete failing input the
returned failure is the 500 wrap. -/
theorem verify_google_token_evidence_witness :
    (HttpFail.authenticationError .invalidCredentials).status = 500 :=
  (verify_google_token_evidence.2.2.2.2.2.2.2 (fun _ => .error "bad") okUserinfoOracle
    (some "cid") "tok").2 (.authenticationError .invalidCredentials) rfl

end ChatStack
